import Mathlib

/-!
Verification development for the auto-llm-selector repository.

Shallow embedding conventions:
* numeric values (scores, confidences, prices) that the source holds as JS
  numbers are modelled as exact rationals (`ℚ`), the decimal literals of the
  source carried over verbatim;
* JS strings are Lean `String`s; `String.prototype.includes` is modelled by
  an executable substring test on the underlying character lists;
* stateful or effectful collaborators (the catalog fetch, the embedding
  service, the decision LLM) are modelled as explicit inputs
  (`Except`/`Option` values) to otherwise pure functions.
-/

/- ===== Data model (src/types.ts) ===== -/

/-- The six prompt categories of `PromptType` in src/types.ts. -/
inductive PromptType where
  | creative
  | analytical
  | coding
  | conversational
  | reasoning
  | general
deriving DecidableEq, Repr

/-- Classification result: category plus confidence (src/types.ts `PromptCategory`). -/
structure PromptCategory where
  type : PromptType
  confidence : ℚ
deriving DecidableEq, Repr

/- ===== String helpers (model of `String.prototype.includes` / `toLowerCase`) ===== -/

/-- Boolean prefix test on character lists. -/
def isPrefixB : List Char → List Char → Bool
  | [], _ => true
  | _ :: _, [] => false
  | a :: as, b :: bs => a == b && isPrefixB as bs

/-- Boolean substring test on character lists: does `needle` occur contiguously. -/
def containsSub (needle : List Char) : List Char → Bool
  | [] => needle.isEmpty
  | c :: rest => isPrefixB needle (c :: rest) || containsSub needle rest

/-- Model of JS `haystack.includes(needle)`. -/
def strContains (haystack needle : String) : Bool :=
  containsSub needle.toList haystack.toList

/-- Model of JS `String.prototype.toLowerCase` (ASCII-faithful). -/
def lowerStr (s : String) : String :=
  String.mk (s.toList.map Char.toLower)

/- ===== Keyword classifier (src/classifier.ts) =====
The CLASSIFICATION_KEYWORDS table, copied verbatim. -/

/-- High-specificity coding keywords. -/
def codingHigh : List String :=
  ["algorithm", "compile", "syntax", "import", "export", "debug", "variable", "method"]

/-- Medium-specificity coding keywords. -/
def codingMed : List String := ["code", "function", "program", "api", "script", "class"]

/-- Low-specificity coding keywords. -/
def codingLow : List String := ["write", "return"]

/-- High-specificity creative keywords. -/
def creativeHigh : List String :=
  ["poem", "novel", "character", "plot", "narrative", "fiction", "imagine"]

/-- Medium-specificity creative keywords. -/
def creativeMed : List String := ["creative", "story", "design", "art"]

/-- Low-specificity creative keywords. -/
def creativeLow : List String := ["write"]

/-- High-specificity analytical keywords. -/
def analyticalHigh : List String :=
  ["analyze", "statistics", "trends", "insights", "evaluate", "assess"]

/-- Medium-specificity analytical keywords. -/
def analyticalMed : List String :=
  ["data", "research", "study", "examine", "investigate", "compare"]

/-- Low-specificity analytical keywords. -/
def analyticalLow : List String := []

/-- High-specificity reasoning keywords. -/
def reasoningHigh : List String :=
  ["deduce", "infer", "proof", "theorem", "hypothesis", "conclude"]

/-- Medium-specificity reasoning keywords. -/
def reasoningMed : List String := ["reason", "logic", "puzzle"]

/-- Low-specificity reasoning keywords. -/
def reasoningLow : List String := ["solve", "problem", "think"]

/-- High-specificity conversational keywords. -/
def conversationalHigh : List String :=
  ["hi", "hello", "hey", "good morning", "good evening", "thanks", "thank you", "how are you"]

/-- Medium-specificity conversational keywords. -/
def conversationalMed : List String := ["chat", "conversation"]

/-- Low-specificity conversational keywords. -/
def conversationalLow : List String := ["talk"]

/-- `calculateCategoryScore` of src/classifier.ts: weighted count of keyword
matches (weights 3/2/1 for high/medium/low specificity), each keyword tested
by substring containment in the (already lower-cased) prompt. -/
def calculateCategoryScore (p : String) (high med low : List String) : ℕ :=
  (high.filter (fun kw => strContains p kw)).length * 3
  + (med.filter (fun kw => strContains p kw)).length * 2
  + (low.filter (fun kw => strContains p kw)).length * 1

/-- Coding score of a lower-cased prompt. -/
def codingScore (p : String) : ℕ := calculateCategoryScore p codingHigh codingMed codingLow

/-- Creative score of a lower-cased prompt. -/
def creativeScore (p : String) : ℕ :=
  calculateCategoryScore p creativeHigh creativeMed creativeLow

/-- Analytical score of a lower-cased prompt. -/
def analyticalScore (p : String) : ℕ :=
  calculateCategoryScore p analyticalHigh analyticalMed analyticalLow

/-- Reasoning score of a lower-cased prompt. -/
def reasoningScore (p : String) : ℕ :=
  calculateCategoryScore p reasoningHigh reasoningMed reasoningLow

/-- Conversational score of a lower-cased prompt. -/
def conversationalScore (p : String) : ℕ :=
  calculateCategoryScore p conversationalHigh conversationalMed conversationalLow

/-- `Math.max(...Object.values(scores))` of classifyPrompt. -/
def maxKwScore (p : String) : ℕ :=
  max (codingScore p)
    (max (creativeScore p)
      (max (analyticalScore p) (max (reasoningScore p) (conversationalScore p))))

/-- `Object.values(scores).reduce((sum, score) => sum + score, 0)` of classifyPrompt. -/
def totalKwScore (p : String) : ℕ :=
  codingScore p + creativeScore p + analyticalScore p + reasoningScore p
    + conversationalScore p

/-- `calculateConfidence` of src/classifier.ts. -/
def calculateConfidence (maxScore totalScore : ℕ) : ℚ :=
  if totalScore = 0 then 0.6
  else
    let scoreStrength : ℚ := min ((maxScore : ℚ) / 10) 1
    let dominance : ℚ := (maxScore : ℚ) / (totalScore : ℚ)
    max 0.3 (min (scoreStrength * 0.6 + dominance * 0.4) 0.95)

/-- `PromptClassifier.classifyPrompt` of src/classifier.ts: lower-case the
prompt, score all five categories, return general/0.6 on an all-zero score,
otherwise the first category (in the object-literal enumeration order
coding, creative, analytical, reasoning, conversational) reaching the
maximum score. -/
def classifyPrompt (prompt : String) : PromptCategory :=
  let p := lowerStr prompt
  let maxScore := maxKwScore p
  if maxScore = 0 then ⟨PromptType.general, 0.6⟩
  else
    let t :=
      if codingScore p = maxScore then PromptType.coding
      else if creativeScore p = maxScore then PromptType.creative
      else if analyticalScore p = maxScore then PromptType.analytical
      else if reasoningScore p = maxScore then PromptType.reasoning
      else PromptType.conversational
    ⟨t, calculateConfidence maxScore (totalKwScore p)⟩

/-- The keyword score of a given category for a lower-cased prompt. -/
def scoreFor (p : String) : PromptType → ℕ
  | PromptType.coding => codingScore p
  | PromptType.creative => creativeScore p
  | PromptType.analytical => analyticalScore p
  | PromptType.reasoning => reasoningScore p
  | PromptType.conversational => conversationalScore p
  | PromptType.general => 0

/- ===== Theorems for the keyword classifier ===== -/

/-- The maximum of the five scores is attained by one of them. -/
theorem maxKwScore_attained (p : String) :
    maxKwScore p = codingScore p ∨ maxKwScore p = creativeScore p ∨
    maxKwScore p = analyticalScore p ∨ maxKwScore p = reasoningScore p ∨
    maxKwScore p = conversationalScore p := by
  unfold maxKwScore
  rcases max_choice (codingScore p)
      (max (creativeScore p)
        (max (analyticalScore p) (max (reasoningScore p) (conversationalScore p)))) with h | h
  · exact Or.inl h
  · rw [h]
    rcases max_choice (creativeScore p)
        (max (analyticalScore p) (max (reasoningScore p) (conversationalScore p))) with h2 | h2
    · exact Or.inr (Or.inl h2)
    · rw [h2]
      rcases max_choice (analyticalScore p)
          (max (reasoningScore p) (conversationalScore p)) with h3 | h3
      · exact Or.inr (Or.inr (Or.inl h3))
      · rw [h3]
        rcases max_choice (reasoningScore p) (conversationalScore p) with h4 | h4
        · exact Or.inr (Or.inr (Or.inr (Or.inl h4)))
        · rw [h4]; exact Or.inr (Or.inr (Or.inr (Or.inr rfl)))

/-- Each individual score is bounded by the total. -/
theorem maxKwScore_le_total (p : String) : maxKwScore p ≤ totalKwScore p := by
  rcases maxKwScore_attained p with h | h | h | h | h <;> rw [h] <;> unfold totalKwScore <;> omega

/-- Closed form of `calculateConfidence` in the claim's argument order. -/
theorem calculateConfidence_eq (M T : ℕ) (hT : T ≠ 0) :
    calculateConfidence M T =
      max 0.3 (min 0.95 (0.6 * min ((M : ℚ) / 10) 1 + 0.4 * ((M : ℚ) / (T : ℚ)))) := by
  unfold calculateConfidence
  rw [if_neg hT]
  rw [min_comm (0.95 : ℚ)]
  ring_nf

/-- C6: `classifyPrompt` returns general with confidence exactly 0.6 when the
maximum weighted keyword score over all categories is 0; otherwise it returns
a category attaining the maximal score, with confidence
max(0.3, min(0.95, 0.6 * min(maxScore/10, 1) + 0.4 * (maxScore/totalScore))). -/
theorem C6_keyword_classifier (prompt : String) :
    (maxKwScore (lowerStr prompt) = 0 →
      classifyPrompt prompt = ⟨PromptType.general, 0.6⟩) ∧
    (maxKwScore (lowerStr prompt) ≠ 0 →
      scoreFor (lowerStr prompt) (classifyPrompt prompt).type = maxKwScore (lowerStr prompt) ∧
      (classifyPrompt prompt).confidence =
        max 0.3 (min 0.95
          (0.6 * min ((maxKwScore (lowerStr prompt) : ℚ) / 10) 1
            + 0.4 * ((maxKwScore (lowerStr prompt) : ℚ) / (totalKwScore (lowerStr prompt) : ℚ))))) := by
  constructor
  · intro h
    simp [classifyPrompt, h]
  · intro h
    have htot : totalKwScore (lowerStr prompt) ≠ 0 := by
      have := maxKwScore_le_total (lowerStr prompt)
      omega
    constructor
    · unfold classifyPrompt
      simp only [h, if_neg h]
      set p := lowerStr prompt with hp
      by_cases h1 : codingScore p = maxKwScore p
      · simp only [if_pos h1, scoreFor]; exact h1
      · simp only [if_neg h1]
        by_cases h2 : creativeScore p = maxKwScore p
        · simp only [if_pos h2, scoreFor]; exact h2
        · simp only [if_neg h2]
          by_cases h3 : analyticalScore p = maxKwScore p
          · simp only [if_pos h3, scoreFor]; exact h3
          · simp only [if_neg h3]
            by_cases h4 : reasoningScore p = maxKwScore p
            · simp only [if_pos h4, scoreFor]; exact h4
            · simp only [if_neg h4, scoreFor]
              rcases maxKwScore_attained p with h' | h' | h' | h' | h'
              · exact absurd h'.symm h1
              · exact absurd h'.symm h2
              · exact absurd h'.symm h3
              · exact absurd h'.symm h4
              · exact h'.symm
    · have hc : (classifyPrompt prompt).confidence
          = calculateConfidence (maxKwScore (lowerStr prompt)) (totalKwScore (lowerStr prompt)) := by
        unfold classifyPrompt
        simp only [if_neg h]
      rw [hc]
      exact calculateConfidence_eq _ _ htot

/-- Witness for C6: the prompt "algorithm" has a nonzero maximal keyword
score, the returned category attains it, and the confidence follows the
clamped formula. -/
theorem C6_keyword_classifier_witness :
    scoreFor (lowerStr ("algorithm")) (classifyPrompt ("algorithm")).type
        = maxKwScore (lowerStr ("algorithm")) ∧
    (classifyPrompt ("algorithm")).confidence =
      max 0.3 (min 0.95
        (0.6 * min ((maxKwScore (lowerStr ("algorithm")) : ℚ) / 10) 1
          + 0.4 * ((maxKwScore (lowerStr ("algorithm")) : ℚ)
              / (totalKwScore (lowerStr ("algorithm")) : ℚ)))) :=
  (C6_keyword_classifier ("algorithm")).2 (by decide)

/-- C10: keyword matching is raw substring containment, not word-boundary
matching: the prompt "this" contains no conversational keyword as a whole
prompt, yet the high-specificity keyword "hi" is counted as matched (score 3)
and determines the returned category. -/
theorem C10_substring_matching :
    (classifyPrompt ("this")).type = PromptType.conversational ∧
    conversationalScore (lowerStr ("this")) = 3 ∧
    (∀ kw ∈ conversationalHigh ++ conversationalMed ++ conversationalLow,
      kw ≠ ("this") ∧ (strContains (lowerStr ("this")) kw = true ↔ kw = ("hi"))) := by
  decide

/- ===== Hybrid classification combiner (the profile-era classifier file,
`combineClassificationResults` / `calculateHybridScore`) =====
A settled classifier outcome is `some result` (fulfilled) or `none`
(rejected), mirroring `PromiseSettledResult`. -/

/-- `calculateHybridScore`: agreement gives a bonus capped at 0.95;
disagreement keeps the method with the larger weighted score (ties going to
the semantic side, code comparison `semanticScore >= keywordScore`), floored
at 0.3. Weights: semantic 0.6, keyword 0.4. -/
def calculateHybridScore (semantic keyword : PromptCategory) : PromptCategory :=
  if semantic.type = keyword.type then
    ⟨semantic.type, min (semantic.confidence * 0.6 + keyword.confidence * 0.4 + 0.1) 0.95⟩
  else
    let semanticScore := semantic.confidence * 0.6
    let keywordScore := keyword.confidence * 0.4
    if keywordScore ≤ semanticScore then ⟨semantic.type, max semanticScore 0.3⟩
    else ⟨keyword.type, max keywordScore 0.3⟩

/-- `combineClassificationResults`: fallback to general/0.6 if both settled
rejected, pass a single fulfilled result through unchanged, combine two
fulfilled results with `calculateHybridScore`. -/
def combineClassificationResults (semantic keyword : Option PromptCategory) :
    PromptCategory :=
  match semantic, keyword with
  | none, none => ⟨PromptType.general, 0.6⟩
  | none, some k => k
  | some s, none => s
  | some s, some k => calculateHybridScore s k

/-- C5: the hybrid combiner returns general/0.6 when both classifiers fail,
passes a lone surviving result through unchanged, boosts agreement to
min(0.95, 0.6*semanticConf + 0.4*keywordConf + 0.1), and on disagreement
returns the category of the method with the strictly higher weighted score
(0.6*semanticConf vs 0.4*keywordConf) with confidence max(that score, 0.3). -/
theorem C5_hybrid_combiner :
    combineClassificationResults none none = ⟨PromptType.general, 0.6⟩ ∧
    (∀ k, combineClassificationResults none (some k) = k) ∧
    (∀ s, combineClassificationResults (some s) none = s) ∧
    (∀ s k, s.type = k.type →
      combineClassificationResults (some s) (some k) =
        ⟨s.type, min 0.95 (0.6 * s.confidence + 0.4 * k.confidence + 0.1)⟩) ∧
    (∀ s k, s.type ≠ k.type → 0.4 * k.confidence < 0.6 * s.confidence →
      combineClassificationResults (some s) (some k) =
        ⟨s.type, max (0.6 * s.confidence) 0.3⟩) ∧
    (∀ s k, s.type ≠ k.type → 0.6 * s.confidence < 0.4 * k.confidence →
      combineClassificationResults (some s) (some k) =
        ⟨k.type, max (0.4 * k.confidence) 0.3⟩) := by
  refine ⟨rfl, fun k => rfl, fun s => rfl, ?_, ?_, ?_⟩
  · intro s k hty
    simp only [combineClassificationResults, calculateHybridScore, if_pos hty]
    rw [min_comm (0.95 : ℚ)]
    ring_nf
  · intro s k hty hlt
    have hle : k.confidence * 0.4 ≤ s.confidence * 0.6 := by linarith
    simp only [combineClassificationResults, calculateHybridScore, if_neg hty, if_pos hle]
    rw [mul_comm s.confidence (0.6 : ℚ)]
  · intro s k hty hlt
    have hgt : ¬ k.confidence * 0.4 ≤ s.confidence * 0.6 := by
      rw [not_le]; linarith
    simp only [combineClassificationResults, calculateHybridScore, if_neg hty, if_neg hgt]
    rw [mul_comm k.confidence (0.4 : ℚ)]

/-- Witness for C5: concrete instances of the agreement case and of both
disagreement cases. -/
theorem C5_hybrid_combiner_witness :
    combineClassificationResults (some ⟨PromptType.coding, 0.8⟩) (some ⟨PromptType.coding, 0.5⟩)
        = ⟨PromptType.coding, min 0.95 (0.6 * 0.8 + 0.4 * 0.5 + 0.1)⟩ ∧
    combineClassificationResults (some ⟨PromptType.coding, 0.8⟩) (some ⟨PromptType.creative, 0.5⟩)
        = ⟨PromptType.coding, max (0.6 * 0.8) 0.3⟩ ∧
    combineClassificationResults (some ⟨PromptType.coding, 0.1⟩) (some ⟨PromptType.creative, 0.9⟩)
        = ⟨PromptType.creative, max (0.4 * 0.9) 0.3⟩ :=
  ⟨C5_hybrid_combiner.2.2.2.1 ⟨PromptType.coding, 0.8⟩ ⟨PromptType.coding, 0.5⟩ rfl,
   C5_hybrid_combiner.2.2.2.2.1 ⟨PromptType.coding, 0.8⟩ ⟨PromptType.creative, 0.5⟩
     (by decide) (by norm_num),
   C5_hybrid_combiner.2.2.2.2.2 ⟨PromptType.coding, 0.1⟩ ⟨PromptType.creative, 0.9⟩
     (by decide) (by norm_num)⟩

/- ===== Model profiler (the `ModelProfiler` file) ===== -/

/-- Raw OpenRouter model descriptor (src/types.ts `ModelInfo`). The pricing
strings are modelled as the exact rational values `parseFloat` yields. -/
structure ModelInfo where
  id : String
  name : String
  description : Option String
  context_length : ℕ
  pricingPrompt : ℚ
  pricingCompletion : ℚ
  maxCompletionTokens : Option ℕ
  isModerated : Bool
deriving DecidableEq, Repr

/-- The six capability axes (src/types.ts `ModelCapabilities`). -/
structure ModelCapabilities where
  coding : ℚ
  creative : ℚ
  analytical : ℚ
  reasoning : ℚ
  conversational : ℚ
  general : ℚ
deriving DecidableEq, Repr

/-- Speed tiers. -/
inductive SpeedTier where
  | ultraFast
  | fast
  | medium
  | slow
deriving DecidableEq, Repr

/-- Cost tiers. -/
inductive CostTier where
  | free
  | cheap
  | moderate
  | expensive
  | premium
deriving DecidableEq, Repr

/-- Accuracy tiers. -/
inductive AccuracyTier where
  | basic
  | good
  | high
  | excellent
deriving DecidableEq, Repr

/-- Context tiers. -/
inductive ContextTier where
  | small
  | medium
  | large
  | huge
deriving DecidableEq, Repr

/-- Categorical characteristics (src/types.ts `ModelCharacteristics`). -/
structure ModelCharacteristics where
  speedTier : SpeedTier
  costTier : CostTier
  accuracyTier : AccuracyTier
  contextTier : ContextTier
  provider : String
  modelFamily : String
  isReasoning : Bool
  isMultimodal : Bool
deriving DecidableEq, Repr

/-- Full model profile (src/types.ts `ModelProfile`). -/
structure ModelProfile where
  id : String
  name : String
  description : String
  capabilities : ModelCapabilities
  characteristics : ModelCharacteristics
  contextLength : ℕ
  promptCostPerToken : ℚ
  completionCostPerToken : ℚ
  maxCompletionTokens : ℕ
  isModerated : Bool
  profileConfidence : ℚ
deriving DecidableEq, Repr

/-- One entry of the curated table: `Partial ModelCapabilities and
ModelCharacteristics` (only the fields the table actually sets). -/
structure KnownProfile where
  coding : Option ℚ
  creative : Option ℚ
  analytical : Option ℚ
  reasoning : Option ℚ
  conversational : Option ℚ
  general : Option ℚ
  speedTier : Option SpeedTier
  accuracyTier : Option AccuracyTier
  isReasoning : Option Bool
  isMultimodal : Option Bool
deriving DecidableEq, Repr

/-- `KNOWN_MODEL_PROFILES`: the curated table, copied entry by entry. -/
def KNOWN_MODEL_PROFILES : List (String × KnownProfile) :=
  [("openai/gpt-4o", ⟨some 0.95, some 0.9, some 0.92, some 0.95, some 0.9, some 0.95,
      some SpeedTier.medium, some AccuracyTier.excellent, some true, some true⟩),
   ("openai/gpt-4o-mini", ⟨some 0.85, some 0.8, some 0.82, some 0.85, some 0.85, some 0.85,
      some SpeedTier.fast, some AccuracyTier.high, some true, some true⟩),
   ("openai/gpt-4-turbo", ⟨some 0.9, some 0.88, some 0.9, some 0.92, some 0.88, some 0.9,
      some SpeedTier.medium, some AccuracyTier.excellent, some true, some true⟩),
   ("openai/gpt-3.5-turbo", ⟨some 0.75, some 0.7, some 0.72, some 0.75, some 0.8, some 0.75,
      some SpeedTier.fast, some AccuracyTier.good, some false, some false⟩),
   ("anthropic/claude-3-opus", ⟨some 0.92, some 0.95, some 0.95, some 0.95, some 0.95, some 0.93,
      some SpeedTier.slow, some AccuracyTier.excellent, some true, some true⟩),
   ("anthropic/claude-3-sonnet", ⟨some 0.88, some 0.9, some 0.9, some 0.9, some 0.9, some 0.88,
      some SpeedTier.medium, some AccuracyTier.excellent, some true, some true⟩),
   ("anthropic/claude-3-haiku", ⟨some 0.75, some 0.8, some 0.78, some 0.8, some 0.85, some 0.78,
      some SpeedTier.ultraFast, some AccuracyTier.good, some true, some true⟩),
   ("google/gemini-pro-1.5", ⟨some 0.85, some 0.82, some 0.88, some 0.85, some 0.8, some 0.85,
      some SpeedTier.medium, some AccuracyTier.high, some true, some true⟩),
   ("google/gemini-flash-1.5", ⟨some 0.8, some 0.75, some 0.8, some 0.78, some 0.75, some 0.78,
      some SpeedTier.ultraFast, some AccuracyTier.good, some true, some true⟩),
   ("meta-llama/llama-3.1-405b", ⟨some 0.88, some 0.85, some 0.85, some 0.88, some 0.82, some 0.85,
      some SpeedTier.slow, some AccuracyTier.high, some true, some false⟩),
   ("meta-llama/llama-3.1-70b", ⟨some 0.82, some 0.8, some 0.8, some 0.82, some 0.78, some 0.8,
      some SpeedTier.medium, some AccuracyTier.high, some true, some false⟩),
   ("meta-llama/llama-3.1-8b", ⟨some 0.7, some 0.65, some 0.68, some 0.7, some 0.7, some 0.68,
      some SpeedTier.fast, some AccuracyTier.good, some true, some false⟩),
   ("gryphe/mythomist-7b:free", ⟨some 0.6, some 0.75, some 0.5, some 0.55, some 0.7, some 0.6,
      some SpeedTier.fast, some AccuracyTier.basic, some false, some false⟩),
   ("microsoft/wizardlm-2-8x22b", ⟨some 0.78, some 0.75, some 0.75, some 0.8, some 0.75, some 0.75,
      some SpeedTier.medium, some AccuracyTier.good, some true, some false⟩)]

/-- JS object-key lookup `KNOWN_MODEL_PROFILES[id]`. -/
def findKnown : List (String × KnownProfile) → String → Option KnownProfile
  | [], _ => none
  | (k, v) :: rest, id => if id = k then some v else findKnown rest id

/-- `extractProvider`: substring of the id before the first slash, with
`unknown` for an empty result (JS `modelId.split('/')[0] || 'unknown'`). -/
def extractProvider (modelId : String) : String :=
  let seg := String.mk (modelId.toList.takeWhile (fun c => c ≠ '/'))
  if seg = ("") then ("unknown") else seg

/-- `extractModelFamily`: first matching substring pattern wins. -/
def extractModelFamily (modelId : String) : String :=
  let id := lowerStr modelId
  if strContains id ("gpt-4") then ("gpt-4")
  else if strContains id ("gpt-3") then ("gpt-3.5")
  else if strContains id ("claude-3") then ("claude-3")
  else if strContains id ("claude-2") then ("claude-2")
  else if strContains id ("gemini") then ("gemini")
  else if strContains id ("llama-3") then ("llama-3")
  else if strContains id ("llama-2") then ("llama-2")
  else if strContains id ("wizard") then ("wizard")
  else if strContains id ("mixtral") then ("mixtral")
  else ("unknown")

/-- `buildCapabilitiesFromKnown`: table values with 0.5 defaults. -/
def buildCapabilitiesFromKnown (kp : KnownProfile) : ModelCapabilities :=
  ⟨kp.coding.getD 0.5, kp.creative.getD 0.5, kp.analytical.getD 0.5,
   kp.reasoning.getD 0.5, kp.conversational.getD 0.5, kp.general.getD 0.5⟩

/-- Average per-token cost, `(parseFloat(prompt) + parseFloat(completion)) / 2`. -/
def avgCost (m : ModelInfo) : ℚ :=
  (m.pricingPrompt + m.pricingCompletion) / 2

/-- Provider-based additive adjustments of `inferCapabilities` (the
`switch (provider)` block), starting from the 0.5 baseline. -/
def providerAdjusted (provider : String) : ModelCapabilities :=
  if provider = ("openai") then
    { coding := 0.5 + 0.2, creative := 0.5, analytical := 0.5,
      reasoning := 0.5 + 0.15, conversational := 0.5, general := 0.5 + 0.1 }
  else if provider = ("anthropic") then
    { coding := 0.5, creative := 0.5 + 0.2, analytical := 0.5,
      reasoning := 0.5 + 0.15, conversational := 0.5 + 0.2, general := 0.5 }
  else if provider = ("google") then
    { coding := 0.5, creative := 0.5, analytical := 0.5 + 0.15,
      reasoning := 0.5, conversational := 0.5, general := 0.5 + 0.1 }
  else if provider = ("meta-llama") then
    { coding := 0.5 + 0.1, creative := 0.5, analytical := 0.5,
      reasoning := 0.5 + 0.1, conversational := 0.5, general := 0.5 }
  else
    { coding := 0.5, creative := 0.5, analytical := 0.5,
      reasoning := 0.5, conversational := 0.5, general := 0.5 }

/-- Model-family additive adjustments of `inferCapabilities`. -/
def familyAdjusted (c : ModelCapabilities) (modelFamily : String) : ModelCapabilities :=
  if strContains modelFamily ("gpt-4") then
    { c with coding := c.coding + 0.15, reasoning := c.reasoning + 0.2 }
  else if strContains modelFamily ("claude-3") then
    { c with creative := c.creative + 0.15, conversational := c.conversational + 0.15 }
  else c

/-- `inferCapabilities`: baseline plus provider/family adjustments plus a
cost bonus `min(avgCost * 1000, 0.15)`, each axis clamped by `min(.., 1)`. -/
def inferCapabilities (m : ModelInfo) (provider modelFamily : String) : ModelCapabilities :=
  let c := familyAdjusted (providerAdjusted provider) modelFamily
  let costBonus := min (avgCost m * 1000) 0.15
  ⟨min (c.coding + costBonus) 1, min (c.creative + costBonus) 1,
   min (c.analytical + costBonus) 1, min (c.reasoning + costBonus) 1,
   min (c.conversational + costBonus) 1, min (c.general + costBonus) 1⟩

/-- JS truthiness test `modelInfo.description && modelInfo.description.length > 50`. -/
def descLongerThan50 (m : ModelInfo) : Bool :=
  match m.description with
  | some d => 50 < d.length
  | none => false

/-- `calculateInferredConfidence`: 0.4 base, +0.2 for a well-known provider,
+0.1 for a long description, capped by `Math.min(confidence, 0.8)`. -/
def calculateInferredConfidence (m : ModelInfo) : ℚ :=
  let provider := extractProvider m.id
  let c1 : ℚ := 0.4
  let c2 := if provider = ("openai") ∨ provider = ("anthropic") ∨ provider = ("google")
    then c1 + 0.2 else c1
  let c3 := if descLongerThan50 m then c2 + 0.1 else c2
  min c3 0.8

/-- `inferSpeedTier`: id-substring heuristics. -/
def inferSpeedTier (m : ModelInfo) : SpeedTier :=
  let id := lowerStr m.id
  if strContains id ("turbo") || strContains id ("flash")
      || strContains id ("haiku") || strContains id ("mini") then SpeedTier.ultraFast
  else if strContains id ("3.5") || strContains id ("-8b")
      || strContains id ("small") then SpeedTier.fast
  else if strContains id ("opus") || strContains id ("405b") then SpeedTier.slow
  else SpeedTier.medium

/-- `inferCostTier`: average-cost breakpoints. -/
def inferCostTier (m : ModelInfo) : CostTier :=
  let a := avgCost m
  if a = 0 then CostTier.free
  else if a < 0.0001 then CostTier.cheap
  else if a < 0.001 then CostTier.moderate
  else if a < 0.01 then CostTier.expensive
  else CostTier.premium

/-- `inferAccuracyTier`: id-substring and provider heuristics. -/
def inferAccuracyTier (m : ModelInfo) (provider : String) : AccuracyTier :=
  let id := lowerStr m.id
  if strContains id ("opus") || strContains id ("gpt-4o")
      || strContains id ("405b") then AccuracyTier.excellent
  else if strContains id ("sonnet") || strContains id ("gpt-4")
      || strContains id ("70b") then AccuracyTier.high
  else if provider = ("openai") ∨ provider = ("anthropic") then AccuracyTier.good
  else AccuracyTier.basic

/-- `inferContextTier`: context-length breakpoints. -/
def inferContextTier (contextLength : ℕ) : ContextTier :=
  if 1000000 ≤ contextLength then ContextTier.huge
  else if 100000 ≤ contextLength then ContextTier.large
  else if 32000 ≤ contextLength then ContextTier.medium
  else ContextTier.small

/-- `inferReasoningCapability`: family within the fixed reasoning-capable list. -/
def inferReasoningCapability (modelFamily : String) : Bool :=
  strContains modelFamily ("gpt-4") || strContains modelFamily ("claude-3")
    || strContains modelFamily ("claude-2") || strContains modelFamily ("llama-3")
    || strContains modelFamily ("gemini")

/-- `inferMultimodalCapability`: fixed id-substring list. -/
def inferMultimodalCapability (modelId : String) : Bool :=
  let id := lowerStr modelId
  strContains id ("vision") || strContains id ("gpt-4") || strContains id ("claude-3")
    || strContains id ("gemini") || strContains id ("gpt-4o")

/-- `buildCharacteristics`: known values (with inferred defaults for the
fields the table leaves unset) or full inference. -/
def buildCharacteristics (m : ModelInfo) (known : Option KnownProfile)
    (provider modelFamily : String) : ModelCharacteristics :=
  match known with
  | some kp =>
    ⟨kp.speedTier.getD (inferSpeedTier m), inferCostTier m,
     kp.accuracyTier.getD (inferAccuracyTier m provider),
     inferContextTier m.context_length, provider, modelFamily,
     kp.isReasoning.getD (inferReasoningCapability modelFamily),
     kp.isMultimodal.getD (inferMultimodalCapability m.id)⟩
  | none =>
    ⟨inferSpeedTier m, inferCostTier m, inferAccuracyTier m provider,
     inferContextTier m.context_length, provider, modelFamily,
     inferReasoningCapability modelFamily, inferMultimodalCapability m.id⟩

/-- `ModelProfiler.createModelProfile`: curated table takes precedence over
inference, confidence 0.95 for known entries. -/
def createModelProfile (m : ModelInfo) : ModelProfile :=
  let knownProfile := findKnown KNOWN_MODEL_PROFILES m.id
  let provider := extractProvider m.id
  let modelFamily := extractModelFamily m.id
  let capabilities :=
    match knownProfile with
    | some kp => buildCapabilitiesFromKnown kp
    | none => inferCapabilities m provider modelFamily
  let characteristics := buildCharacteristics m knownProfile provider modelFamily
  let profileConfidence :=
    match knownProfile with
    | some _ => (0.95 : ℚ)
    | none => calculateInferredConfidence m
  ⟨m.id, m.name, m.description.getD (""), capabilities, characteristics,
   m.context_length, m.pricingPrompt, m.pricingCompletion,
   m.maxCompletionTokens.getD 0, m.isModerated, profileConfidence⟩

/- ===== Theorems for the profiler ===== -/

/-- A successful table lookup returns an entry of the table. -/
theorem findKnown_mem :
    ∀ (l : List (String × KnownProfile)) (id : String) (kp : KnownProfile),
      findKnown l id = some kp → (id, kp) ∈ l := by
  intro l
  induction l with
  | nil => intro id kp h; simp [findKnown] at h
  | cons hd tl ih =>
    intro id kp h
    obtain ⟨k, v⟩ := hd
    unfold findKnown at h
    by_cases hik : id = k
    · rw [if_pos hik] at h
      obtain rfl : v = kp := by injection h
      subst hik
      exact List.mem_cons_self _ _
    · rw [if_neg hik] at h
      exact List.mem_cons_of_mem _ (ih id kp h)

/-- Completeness of a curated entry: all six capability fields present. -/
abbrev knownComplete (kp : KnownProfile) : Prop :=
  kp.coding.isSome = true ∧ kp.creative.isSome = true ∧ kp.analytical.isSome = true
    ∧ kp.reasoning.isSome = true ∧ kp.conversational.isSome = true
    ∧ kp.general.isSome = true

/-- Every curated entry sets all six capability scores. -/
theorem table_complete : ∀ e ∈ KNOWN_MODEL_PROFILES, knownComplete e.2 := by decide

/-- Membership of the unit interval. -/
abbrev inUnit (x : ℚ) : Prop := 0 ≤ x ∧ x ≤ 1

/-- All six capability scores within the unit interval. -/
abbrev capsInUnit (c : ModelCapabilities) : Prop :=
  inUnit c.coding ∧ inUnit c.creative ∧ inUnit c.analytical ∧ inUnit c.reasoning
    ∧ inUnit c.conversational ∧ inUnit c.general

/-- All six capability scores within `[lo, hi]`. -/
abbrev capsBetween (c : ModelCapabilities) (lo hi : ℚ) : Prop :=
  (lo ≤ c.coding ∧ c.coding ≤ hi) ∧ (lo ≤ c.creative ∧ c.creative ≤ hi)
    ∧ (lo ≤ c.analytical ∧ c.analytical ≤ hi) ∧ (lo ≤ c.reasoning ∧ c.reasoning ≤ hi)
    ∧ (lo ≤ c.conversational ∧ c.conversational ≤ hi)
    ∧ (lo ≤ c.general ∧ c.general ≤ hi)

/-- Every curated entry's capabilities are within the unit interval. -/
theorem table_capabilities_inUnit :
    ∀ e ∈ KNOWN_MODEL_PROFILES, capsInUnit (buildCapabilitiesFromKnown e.2) := by
  intro e he
  simp only [KNOWN_MODEL_PROFILES, List.mem_cons, List.not_mem_nil, or_false] at he
  rcases he with rfl | rfl | rfl | rfl | rfl | rfl | rfl | rfl | rfl | rfl | rfl | rfl | rfl | rfl <;>
    norm_num [buildCapabilitiesFromKnown, capsInUnit, inUnit]

/-- Provider adjustments stay within `[0.5, 0.7]`. -/
theorem providerAdjusted_between (provider : String) :
    capsBetween (providerAdjusted provider) 0.5 0.7 := by
  unfold providerAdjusted
  split_ifs <;>
    refine ⟨⟨?_, ?_⟩, ⟨?_, ?_⟩, ⟨?_, ?_⟩, ⟨?_, ?_⟩, ⟨?_, ?_⟩, ⟨?_, ?_⟩⟩ <;> norm_num

/-- Family adjustments on a `[0.5, 0.7]` profile stay within `[0.5, 0.9]`. -/
theorem familyAdjusted_between (c : ModelCapabilities) (modelFamily : String)
    (h : capsBetween c 0.5 0.7) : capsBetween (familyAdjusted c modelFamily) 0.5 0.9 := by
  obtain ⟨⟨h1a, h1b⟩, ⟨h2a, h2b⟩, ⟨h3a, h3b⟩, ⟨h4a, h4b⟩, ⟨h5a, h5b⟩, ⟨h6a, h6b⟩⟩ := h
  unfold familyAdjusted
  split_ifs
  · refine ⟨⟨?_, ?_⟩, ⟨?_, ?_⟩, ⟨?_, ?_⟩, ⟨?_, ?_⟩, ⟨?_, ?_⟩, ⟨?_, ?_⟩⟩ <;>
      dsimp only <;> linarith
  · refine ⟨⟨?_, ?_⟩, ⟨?_, ?_⟩, ⟨?_, ?_⟩, ⟨?_, ?_⟩, ⟨?_, ?_⟩, ⟨?_, ?_⟩⟩ <;>
      dsimp only <;> linarith
  · exact ⟨⟨h1a, by linarith⟩, ⟨h2a, by linarith⟩, ⟨h3a, by linarith⟩,
      ⟨h4a, by linarith⟩, ⟨h5a, by linarith⟩, ⟨h6a, by linarith⟩⟩

/-- Inferred capabilities lie in the unit interval for non-negative pricing. -/
theorem inferCapabilities_inUnit (m : ModelInfo) (provider modelFamily : String)
    (hp : 0 ≤ m.pricingPrompt) (hc : 0 ≤ m.pricingCompletion) :
    capsInUnit (inferCapabilities m provider modelFamily) := by
  have havg : 0 ≤ avgCost m := by
    unfold avgCost
    have := add_nonneg hp hc
    linarith
  have hb0 : 0 ≤ min (avgCost m * 1000) 0.15 := by
    apply le_min
    · have : (0 : ℚ) ≤ avgCost m * 1000 := mul_nonneg havg (by norm_num)
      linarith
    · norm_num
  have hcb := familyAdjusted_between (providerAdjusted provider) modelFamily
    (providerAdjusted_between provider)
  obtain ⟨⟨h1a, h1b⟩, ⟨h2a, h2b⟩, ⟨h3a, h3b⟩, ⟨h4a, h4b⟩, ⟨h5a, h5b⟩, ⟨h6a, h6b⟩⟩ := hcb
  unfold inferCapabilities
  refine ⟨⟨?_, ?_⟩, ⟨?_, ?_⟩, ⟨?_, ?_⟩, ⟨?_, ?_⟩, ⟨?_, ?_⟩, ⟨?_, ?_⟩⟩ <;> dsimp only
  · exact le_min (by linarith) (by norm_num)
  · exact min_le_right _ _
  · exact le_min (by linarith) (by norm_num)
  · exact min_le_right _ _
  · exact le_min (by linarith) (by norm_num)
  · exact min_le_right _ _
  · exact le_min (by linarith) (by norm_num)
  · exact min_le_right _ _
  · exact le_min (by linarith) (by norm_num)
  · exact min_le_right _ _
  · exact le_min (by linarith) (by norm_num)
  · exact min_le_right _ _

/-- Projection of `createModelProfile` at the capabilities field. -/
theorem createModelProfile_capabilities (m : ModelInfo) :
    (createModelProfile m).capabilities =
      match findKnown KNOWN_MODEL_PROFILES m.id with
      | some kp => buildCapabilitiesFromKnown kp
      | none => inferCapabilities m (extractProvider m.id) (extractModelFamily m.id) := rfl

/-- Projection of `createModelProfile` at the confidence field. -/
theorem createModelProfile_confidence (m : ModelInfo) :
    (createModelProfile m).profileConfidence =
      match findKnown KNOWN_MODEL_PROFILES m.id with
      | some _ => (0.95 : ℚ)
      | none => calculateInferredConfidence m := rfl

/-- C7: for a descriptor whose id is a curated-table key, the profile
confidence is exactly 0.95 and each capability score is exactly the table
entry's value (curated values take precedence over inference). -/
theorem C7_known_profile_precedence (m : ModelInfo) (kp : KnownProfile)
    (h : findKnown KNOWN_MODEL_PROFILES m.id = some kp) :
    (createModelProfile m).profileConfidence = 0.95 ∧
    kp.coding = some (createModelProfile m).capabilities.coding ∧
    kp.creative = some (createModelProfile m).capabilities.creative ∧
    kp.analytical = some (createModelProfile m).capabilities.analytical ∧
    kp.reasoning = some (createModelProfile m).capabilities.reasoning ∧
    kp.conversational = some (createModelProfile m).capabilities.conversational ∧
    kp.general = some (createModelProfile m).capabilities.general := by
  have hmem := findKnown_mem _ _ _ h
  have hcomp : knownComplete kp := table_complete (m.id, kp) hmem
  obtain ⟨h1, h2, h3, h4, h5, h6⟩ := hcomp
  have hcap : (createModelProfile m).capabilities = buildCapabilitiesFromKnown kp := by
    rw [createModelProfile_capabilities, h]
  refine ⟨by rw [createModelProfile_confidence, h], ?_, ?_, ?_, ?_, ?_, ?_⟩
  · obtain ⟨x, hx⟩ := Option.isSome_iff_exists.mp h1
    simp [hcap, buildCapabilitiesFromKnown, hx]
  · obtain ⟨x, hx⟩ := Option.isSome_iff_exists.mp h2
    simp [hcap, buildCapabilitiesFromKnown, hx]
  · obtain ⟨x, hx⟩ := Option.isSome_iff_exists.mp h3
    simp [hcap, buildCapabilitiesFromKnown, hx]
  · obtain ⟨x, hx⟩ := Option.isSome_iff_exists.mp h4
    simp [hcap, buildCapabilitiesFromKnown, hx]
  · obtain ⟨x, hx⟩ := Option.isSome_iff_exists.mp h5
    simp [hcap, buildCapabilitiesFromKnown, hx]
  · obtain ⟨x, hx⟩ := Option.isSome_iff_exists.mp h6
    simp [hcap, buildCapabilitiesFromKnown, hx]

/-- Concrete OpenRouter descriptor for the curated id `openai/gpt-4o`. -/
def gpt4oInfo : ModelInfo :=
  ⟨"openai/gpt-4o", "GPT-4o", some "OpenAI flagship multimodal model", 128000,
   0.0000025, 0.00001, some 16384, true⟩

/-- The curated entry for `openai/gpt-4o`. -/
def gpt4oKnown : KnownProfile :=
  ⟨some 0.95, some 0.9, some 0.92, some 0.95, some 0.9, some 0.95,
   some SpeedTier.medium, some AccuracyTier.excellent, some true, some true⟩

/-- Witness for C7 at the concrete descriptor `openai/gpt-4o`. -/
theorem C7_known_profile_precedence_witness :
    (createModelProfile gpt4oInfo).profileConfidence = 0.95 ∧
    gpt4oKnown.coding = some (createModelProfile gpt4oInfo).capabilities.coding ∧
    gpt4oKnown.creative = some (createModelProfile gpt4oInfo).capabilities.creative ∧
    gpt4oKnown.analytical = some (createModelProfile gpt4oInfo).capabilities.analytical ∧
    gpt4oKnown.reasoning = some (createModelProfile gpt4oInfo).capabilities.reasoning ∧
    gpt4oKnown.conversational = some (createModelProfile gpt4oInfo).capabilities.conversational ∧
    gpt4oKnown.general = some (createModelProfile gpt4oInfo).capabilities.general :=
  C7_known_profile_precedence gpt4oInfo gpt4oKnown rfl

/-- C8: for every descriptor with non-negative pricing, all six capability
scores and the profile confidence lie in `[0, 1]`; for non-curated ids the
confidence is exactly 0.4, +0.2 for providers openai/anthropic/google, +0.1
for a description longer than 50 characters, capped at 0.8. -/
theorem C8_score_bounds (m : ModelInfo)
    (hp : 0 ≤ m.pricingPrompt) (hc : 0 ≤ m.pricingCompletion) :
    capsInUnit (createModelProfile m).capabilities ∧
    inUnit (createModelProfile m).profileConfidence ∧
    (findKnown KNOWN_MODEL_PROFILES m.id = none →
      (createModelProfile m).profileConfidence =
        min (0.4
          + (if extractProvider m.id = ("openai") ∨ extractProvider m.id = ("anthropic")
                ∨ extractProvider m.id = ("google") then 0.2 else 0)
          + (if descLongerThan50 m then 0.1 else 0)) 0.8) := by
  rcases hk : findKnown KNOWN_MODEL_PROFILES m.id with _ | kp
  · refine ⟨?_, ?_, ?_⟩
    · rw [createModelProfile_capabilities, hk]
      exact inferCapabilities_inUnit m _ _ hp hc
    · rw [createModelProfile_confidence, hk]
      show inUnit (calculateInferredConfidence m)
      simp only [calculateInferredConfidence]
      split_ifs <;>
        exact ⟨le_min (by norm_num) (by norm_num),
          le_trans (min_le_right _ _) (by norm_num)⟩
    · intro _
      rw [createModelProfile_confidence, hk]
      show calculateInferredConfidence m = _
      simp only [calculateInferredConfidence]
      split_ifs <;> norm_num
  · refine ⟨?_, ?_, ?_⟩
    · rw [createModelProfile_capabilities, hk]
      exact table_capabilities_inUnit (m.id, kp) (findKnown_mem _ _ _ hk)
    · rw [createModelProfile_confidence, hk]
      exact ⟨by norm_num, by norm_num⟩
    · intro hnone
      exact absurd hnone (Option.some_ne_none kp)

/-- Concrete non-curated descriptor with non-negative pricing. -/
def mistralInfo : ModelInfo :=
  ⟨"mistralai/mistral-large", "Mistral Large",
   some "A state of the art large language model for many tasks and long contexts",
   128000, 0.000002, 0.000006, none, false⟩

/-- Witness for C8 at a concrete non-curated descriptor. -/
theorem C8_score_bounds_witness :
    capsInUnit (createModelProfile mistralInfo).capabilities ∧
    inUnit (createModelProfile mistralInfo).profileConfidence ∧
    (createModelProfile mistralInfo).profileConfidence =
      min (0.4
        + (if extractProvider mistralInfo.id = ("openai")
              ∨ extractProvider mistralInfo.id = ("anthropic")
              ∨ extractProvider mistralInfo.id = ("google") then 0.2 else 0)
        + (if descLongerThan50 mistralInfo then 0.1 else 0)) 0.8 :=
  ⟨(C8_score_bounds mistralInfo (by norm_num [mistralInfo]) (by norm_num [mistralInfo])).1,
   (C8_score_bounds mistralInfo (by norm_num [mistralInfo]) (by norm_num [mistralInfo])).2.1,
   (C8_score_bounds mistralInfo (by norm_num [mistralInfo])
     (by norm_num [mistralInfo])).2.2 rfl⟩

/- ===== Model catalog cache (src/cache.ts `fetchAndCacheProfiles`) =====
The HTTP fetch plus response parsing is a collaborator, modelled as an
`Except String (List ModelInfo)` input. On a non-ok response the code throws
before touching `profileCache`; on success it clears the map and repopulates
it from the fetched descriptors alone. -/

/-- Cache state: id-to-profile mapping (insertion-ordered, as a JS Map) plus
the last-fetched timestamp. -/
structure CacheState where
  profileCache : List (String × ModelProfile)
  lastFetched : ℕ
deriving DecidableEq, Repr

/-- JS `Map.set`: overwrite in place when the key exists, append otherwise. -/
def insertProfile (cache : List (String × ModelProfile)) (id : String)
    (p : ModelProfile) : List (String × ModelProfile) :=
  match cache with
  | [] => [(id, p)]
  | (k, v) :: rest => if k = id then (k, p) :: rest else (k, v) :: insertProfile rest id p

/-- The rebuild loop: from a cleared map, profile every fetched descriptor. -/
def rebuildCache (data : List ModelInfo) : List (String × ModelProfile) :=
  data.foldl (fun acc mi => insertProfile acc mi.id (createModelProfile mi)) []

/-- `fetchAndCacheProfiles`: an error propagates leaving the state as it was;
success replaces the whole mapping with profiles from this fetch only. -/
def fetchAndCacheProfiles (st : CacheState) (fetched : Except String (List ModelInfo))
    (now : ℕ) : CacheState × Option String :=
  match fetched with
  | Except.error e => (st, some e)
  | Except.ok data => (⟨rebuildCache data, now⟩, none)

/-- Entries of an insertion come from the old map or are the inserted pair. -/
theorem insertProfile_mem :
    ∀ (cache : List (String × ModelProfile)) (id : String) (p : ModelProfile)
      (a : String) (b : ModelProfile), (a, b) ∈ insertProfile cache id p →
      (a, b) ∈ cache ∨ (a = id ∧ b = p) := by
  intro cache
  induction cache with
  | nil =>
    intro id p a b h
    unfold insertProfile at h
    rcases List.mem_singleton.mp h with h'
    exact Or.inr ⟨congrArg Prod.fst h', congrArg Prod.snd h'⟩
  | cons hd tl ih =>
    intro id p a b h
    obtain ⟨k, v⟩ := hd
    unfold insertProfile at h
    by_cases hk : k = id
    · rw [if_pos hk] at h
      rcases List.mem_cons.mp h with h' | h'
      · refine Or.inr ⟨?_, congrArg Prod.snd h'⟩
        have := congrArg Prod.fst h'
        simpa [hk] using this
      · exact Or.inl (List.mem_cons_of_mem _ h')
    · rw [if_neg hk] at h
      rcases List.mem_cons.mp h with h' | h'
      · exact Or.inl (List.mem_cons.mpr (Or.inl h'))
      · rcases ih id p a b h' with h'' | h''
        · exact Or.inl (List.mem_cons_of_mem _ h'')
        · exact Or.inr h''

/-- Entries of the rebuild fold are sourced from the accumulator or the data. -/
theorem rebuild_sourced :
    ∀ (data : List ModelInfo) (acc : List (String × ModelProfile))
      (a : String) (b : ModelProfile),
      (a, b) ∈ data.foldl (fun acc mi => insertProfile acc mi.id (createModelProfile mi)) acc →
      (a, b) ∈ acc ∨ ∃ mi ∈ data, mi.id = a ∧ b = createModelProfile mi := by
  intro data
  induction data with
  | nil => intro acc a b h; exact Or.inl h
  | cons mi rest ih =>
    intro acc a b h
    simp only [List.foldl_cons] at h
    rcases ih _ a b h with h' | ⟨mj, hmem, hid, hp⟩
    · rcases insertProfile_mem acc mi.id (createModelProfile mi) a b h' with h'' | ⟨ha, hb⟩
      · exact Or.inl h''
      · exact Or.inr ⟨mi, List.mem_cons_self _ _, ha.symm, hb⟩
    · exact Or.inr ⟨mj, List.mem_cons_of_mem _ hmem, hid, hp⟩

/-- C9: a failed fetch propagates the error and leaves the cached mapping
exactly as it was; after a successful rebuild every cached entry is the
profile of a descriptor of that single fetch (no mixing of generations). -/
theorem C9_cache_atomicity :
    (∀ (st : CacheState) (e : String) (now : ℕ),
      fetchAndCacheProfiles st (Except.error e) now = (st, some e)) ∧
    (∀ (st : CacheState) (data : List ModelInfo) (now : ℕ)
      (id : String) (p : ModelProfile),
      (id, p) ∈ (fetchAndCacheProfiles st (Except.ok data) now).1.profileCache →
      ∃ mi ∈ data, mi.id = id ∧ p = createModelProfile mi) := by
  constructor
  · intro st e now; rfl
  · intro st data now id p h
    have h' : (id, p) ∈ rebuildCache data := h
    rcases rebuild_sourced data [] id p h' with h'' | h''
    · exact absurd h'' (List.not_mem_nil _)
    · exact h''

/-- Witness for C9: the error path at a concrete state, and the sourcing of
the one entry produced by a concrete successful fetch. -/
theorem C9_cache_atomicity_witness :
    fetchAndCacheProfiles ⟨[], 0⟩ (Except.error ("fetch failed")) 9
      = (⟨[], 0⟩, some ("fetch failed")) ∧
    ∃ mi ∈ [gpt4oInfo], mi.id = gpt4oInfo.id
      ∧ createModelProfile gpt4oInfo = createModelProfile mi :=
  ⟨C9_cache_atomicity.1 ⟨[], 0⟩ ("fetch failed") 9,
   C9_cache_atomicity.2 ⟨[], 0⟩ [gpt4oInfo] 7 gpt4oInfo.id
     (createModelProfile gpt4oInfo) (List.Mem.head _)⟩

/- ===== Selection engine (the profile-era `AutoPromptRouter`) =====
`getModelRecommendation` / `getLLMDecisionWithProfiles`. The cache read is a
collaborator input (`Except`), classification is total and supplied as the
already-computed `PromptCategory`, and the decision-LLM transport plus JSON
parsing is `Option LLMSelection` (`none` when the call or parse fails,
`some` the parsed `{model, reason, confidence}` object). The code sorts a
projected copy of the candidates only to build the prompt string for the
external LLM; the sorted copy is not consulted on the fallback path. -/

/-- Caller-supplied soft requirements (src/types.ts `PromptProperties`). -/
structure PromptProperties where
  accuracy : ℚ
  cost : ℚ
  speed : ℚ
  tokenLimit : ℕ
  reasoning : Bool
deriving DecidableEq, Repr

/-- Parsed decision-collaborator answer. -/
structure LLMSelection where
  model : String
  reason : String
  confidence : ℚ
deriving DecidableEq, Repr

/-- The router's result (src/types.ts `ModelSelection`). -/
structure ModelSelection where
  model : String
  reason : String
  confidence : ℚ
  category : PromptCategory
deriving DecidableEq, Repr

/-- The string value of a `PromptType` enum member. -/
def typeName : PromptType → String
  | PromptType.creative => "creative"
  | PromptType.analytical => "analytical"
  | PromptType.coding => "coding"
  | PromptType.conversational => "conversational"
  | PromptType.reasoning => "reasoning"
  | PromptType.general => "general"

/-- `profile.capabilities[category.type.toLowerCase()]`: the capability axis
named by the category. -/
def capabilityFor (c : ModelCapabilities) : PromptType → ℚ
  | PromptType.creative => c.creative
  | PromptType.analytical => c.analytical
  | PromptType.coding => c.coding
  | PromptType.conversational => c.conversational
  | PromptType.reasoning => c.reasoning
  | PromptType.general => c.general

/-- Step 2 of `getModelRecommendation`: filter by the reasoning requirement
only, when requested. -/
def availableProfiles (allProfiles : List ModelProfile)
    (properties : PromptProperties) : List ModelProfile :=
  if properties.reasoning then
    allProfiles.filter (fun profile => profile.characteristics.isReasoning)
  else allProfiles

/-- Step 4 of `getModelRecommendation`: keep the profiles whose capability
score for the classified category is at least the 0.3 threshold. This list
is the candidate set handed to the decision step. -/
def categoryProfiles (allProfiles : List ModelProfile)
    (properties : PromptProperties) (category : PromptCategory) : List ModelProfile :=
  (availableProfiles allProfiles properties).filter
    (fun profile => decide ((0.3 : ℚ) ≤ capabilityFor profile.capabilities category.type))

/-- The fallback reason string of `getLLMDecisionWithProfiles`. -/
def fallbackReason (name : String) : String :=
  "Fallback selection: " ++ name ++ " (LLM selection failed)"

/-- Error message raised when the category filter empties the candidates. -/
def noSuitableMsg (t : PromptType) : String :=
  "No suitable models found for category: " ++ typeName t

/-- Error message raised when `recommend` runs before initialization. -/
def uninitializedMsg : String :=
  "Router not initialized. Call initialize() first."

/-- The catch-all error message of `getModelRecommendation`. -/
def recommendFailedMsg : String :=
  "Failed to generate model recommendation"

/-- `getLLMDecisionWithProfiles`: a parsed collaborator answer is returned
as-is (only JSON parsing guards it); on failure the code falls back to the
FIRST element of the unsorted candidate list with confidence 0.5. -/
def getLLMDecisionWithProfiles (decision : Option LLMSelection)
    (candidates : List ModelProfile) (category : PromptCategory) :
    Except String ModelSelection :=
  match decision with
  | some selection => Except.ok ⟨selection.model, selection.reason, selection.confidence, category⟩
  | none =>
    match candidates with
    | [] => Except.error ("No suitable models found for the given requirements")
    | fallbackModel :: _ =>
      Except.ok ⟨fallbackModel.id, fallbackReason fallbackModel.name, 0.5, category⟩

/-- The body of the `try` block of `getModelRecommendation`. -/
def getModelRecommendationInner (profilesResult : Except String (List ModelProfile))
    (properties : PromptProperties) (category : PromptCategory)
    (decision : Option LLMSelection) : Except String ModelSelection :=
  match profilesResult with
  | Except.error e => Except.error e
  | Except.ok allProfiles =>
    let cands := categoryProfiles allProfiles properties category
    if cands = [] then Except.error (noSuitableMsg category.type)
    else getLLMDecisionWithProfiles decision cands category

/-- `getModelRecommendation`: the uninitialized guard, then the pipeline,
with every internal failure re-thrown as the single catch-all error. -/
def getModelRecommendation (isInitialized : Bool)
    (profilesResult : Except String (List ModelProfile))
    (properties : PromptProperties) (category : PromptCategory)
    (decision : Option LLMSelection) : Except String ModelSelection :=
  if isInitialized then
    match getModelRecommendationInner profilesResult properties category decision with
    | Except.ok selection => Except.ok selection
    | Except.error _ => Except.error recommendFailedMsg
  else Except.error uninitializedMsg

/- ===== Theorems for the selection engine ===== -/

/-- A reasoning-capable candidate profile used in concrete runs. -/
def wProfile : ModelProfile :=
  ⟨"prov/model-x", "Model X", "", ⟨1, 1, 1, 1, 1, 1⟩,
   ⟨SpeedTier.medium, CostTier.cheap, AccuracyTier.good, ContextTier.medium,
    "prov", "unknown", true, false⟩,
   32000, 0, 0, 0, false, 0.5⟩

/-- A candidate with category scores 0.4 everywhere. -/
def lowProfile : ModelProfile :=
  ⟨"prov/low-model", "Low Model", "", ⟨0.4, 0.4, 0.4, 0.4, 0.4, 0.4⟩,
   ⟨SpeedTier.fast, CostTier.cheap, AccuracyTier.basic, ContextTier.medium,
    "prov", "unknown", true, false⟩,
   64000, 0, 0, 0, false, 0.5⟩

/-- A candidate with category scores 0.9 everywhere. -/
def highProfile : ModelProfile :=
  ⟨"prov/high-model", "High Model", "", ⟨0.9, 0.9, 0.9, 0.9, 0.9, 0.9⟩,
   ⟨SpeedTier.medium, CostTier.moderate, AccuracyTier.high, ContextTier.large,
    "prov", "unknown", true, false⟩,
   128000, 0, 0, 0, false, 0.8⟩

/-- A candidate below the 0.3 category threshold on every axis. -/
def weakProfile : ModelProfile :=
  ⟨"prov/weak-model", "Weak Model", "", ⟨0.1, 0.1, 0.1, 0.1, 0.1, 0.1⟩,
   ⟨SpeedTier.medium, CostTier.cheap, AccuracyTier.basic, ContextTier.small,
    "prov", "unknown", true, false⟩,
   8000, 0, 0, 0, false, 0.4⟩

/-- A concrete classified category. -/
def codingCat : PromptCategory := ⟨PromptType.coding, 0.9⟩

/-- Properties without the reasoning requirement. -/
def propsNoReasoning : PromptProperties := ⟨0.9, 0.4, 0.8, 3000, false⟩

/-- Properties with the reasoning requirement. -/
def propsReasoning : PromptProperties := ⟨0.9, 0.4, 0.8, 3000, true⟩

/-- A decision-collaborator answer whose model id is outside any candidate set. -/
def outOfSetAnswer : LLMSelection := ⟨"not-a-real-id", "sounds impressive", 0.99⟩

/-- C1 (failing run): with candidate set `[wProfile]`, a parsed collaborator
answer naming `not-a-real-id` — an id absent from the candidate set — is
returned as the recommendation instead of triggering the fallback: the code
never validates the id against the candidates. -/
theorem C1_unvalidated_llm_answer :
    getModelRecommendation true (Except.ok [wProfile]) propsNoReasoning codingCat
        (some outOfSetAnswer)
      = Except.ok ⟨"not-a-real-id", "sounds impressive", 0.99, codingCat⟩ ∧
    ∀ p ∈ categoryProfiles [wProfile] propsNoReasoning codingCat,
      p.id ≠ ("not-a-real-id") := by
  have hlist : categoryProfiles [wProfile] propsNoReasoning codingCat = [wProfile] := by
    norm_num [categoryProfiles, availableProfiles, propsNoReasoning, wProfile,
      capabilityFor, codingCat, List.filter]
  constructor
  · simp [getModelRecommendation, getModelRecommendationInner, hlist,
      getLLMDecisionWithProfiles, outOfSetAnswer]
  · intro p hp
    rw [hlist] at hp
    have hpw := List.mem_singleton.mp hp
    subst hpw
    decide

/-- C2: when the reasoning requirement is set, every profile in the candidate
set handed to the decision step has `isReasoning = true`; non-reasoning
profiles are removed by the step-2 filter. -/
theorem C2_reasoning_filter (allProfiles : List ModelProfile)
    (properties : PromptProperties) (category : PromptCategory)
    (hreq : properties.reasoning = true)
    (p : ModelProfile) (hmem : p ∈ categoryProfiles allProfiles properties category) :
    p.characteristics.isReasoning = true := by
  simp only [categoryProfiles, availableProfiles, hreq, if_true, List.mem_filter,
    decide_eq_true_eq] at hmem
  exact hmem.1.2

/-- Witness for C2: the concrete reasoning-capable candidate survives the
filters and indeed carries the reasoning flag. -/
theorem C2_reasoning_filter_witness : wProfile.characteristics.isReasoning = true :=
  C2_reasoning_filter [wProfile] propsReasoning codingCat rfl wProfile
    (by norm_num [categoryProfiles, availableProfiles, propsReasoning, wProfile,
      capabilityFor, codingCat, List.filter])

/-- C3 (failing run): with the candidate list `[lowProfile, highProfile]` and
a failed decision call, the fallback returns `lowProfile` — the first element
of the unsorted candidate list — with confidence 0.5 and the fallback reason,
even though `highProfile` is a candidate with a strictly higher category
score. -/
theorem C3_fallback_first_not_highest :
    getModelRecommendation true (Except.ok [lowProfile, highProfile]) propsNoReasoning
        codingCat none
      = Except.ok ⟨lowProfile.id, fallbackReason lowProfile.name, 0.5, codingCat⟩ ∧
    highProfile ∈ categoryProfiles [lowProfile, highProfile] propsNoReasoning codingCat ∧
    capabilityFor lowProfile.capabilities codingCat.type
      < capabilityFor highProfile.capabilities codingCat.type := by
  have hlist : categoryProfiles [lowProfile, highProfile] propsNoReasoning codingCat
      = [lowProfile, highProfile] := by
    norm_num [categoryProfiles, availableProfiles, propsNoReasoning, lowProfile,
      highProfile, capabilityFor, codingCat, List.filter]
  refine ⟨?_, ?_, ?_⟩
  · simp [getModelRecommendation, getModelRecommendationInner, hlist,
      getLLMDecisionWithProfiles]
  · rw [hlist]
    exact List.mem_cons_of_mem _ (List.mem_cons_self _ _)
  · norm_num [lowProfile, highProfile, capabilityFor, codingCat]

/-- C4 counterexample: with a populated catalog whose only profile is below
the category threshold, `recommend` throws the generic catch-all error — not
the category-naming no-suitable-models error, not the uninitialized error,
and not a propagated fetch error — so the claimed three-error taxonomy does
not hold. -/
theorem C4_error_taxonomy_counterexample :
    getModelRecommendation true (Except.ok [weakProfile]) propsNoReasoning codingCat none
      = Except.error recommendFailedMsg ∧
    (∀ t : PromptType, recommendFailedMsg ≠ noSuitableMsg t) ∧
    recommendFailedMsg ≠ uninitializedMsg := by
  refine ⟨?_, ?_, ?_⟩
  · have hlist : categoryProfiles [weakProfile] propsNoReasoning codingCat = [] := by
      norm_num [categoryProfiles, availableProfiles, propsNoReasoning, weakProfile,
        capabilityFor, codingCat, List.filter]
    simp [getModelRecommendation, getModelRecommendationInner, hlist]
  · intro t
    cases t <;> decide
  · decide

/-- C4 amended: `getModelRecommendation` either returns a `ModelSelection`
or throws exactly one of two errors — the uninitialized error, or the single
generic catch-all error that wraps every internal failure (the no-suitable-
models error and any catalog-fetch error included). -/
theorem C4_two_error_shapes (isInitialized : Bool)
    (profilesResult : Except String (List ModelProfile))
    (properties : PromptProperties) (category : PromptCategory)
    (decision : Option LLMSelection) :
    (∃ selection,
      getModelRecommendation isInitialized profilesResult properties category decision
        = Except.ok selection) ∨
    getModelRecommendation isInitialized profilesResult properties category decision
      = Except.error uninitializedMsg ∨
    getModelRecommendation isInitialized profilesResult properties category decision
      = Except.error recommendFailedMsg := by
  cases isInitialized with
  | false => exact Or.inr (Or.inl rfl)
  | true =>
    cases h : getModelRecommendationInner profilesResult properties category decision with
    | ok selection =>
      refine Or.inl ⟨selection, ?_⟩
      unfold getModelRecommendation
      rw [h]
      rfl
    | error e =>
      refine Or.inr (Or.inr ?_)
      unfold getModelRecommendation
      rw [h]
      rfl
